import Mathlib

/-
Verification of the Camera Transform Engine of the 3d-matrices-viewer
repository (src/camera-matrix-tool.tsx) against its specification.

The embedding mirrors the source:
  * `Mat4` holds the sixteen scalars that the code passes to
    `THREE.Matrix4.set(n11 .. n44)`, in row-major reading order, as the
    source's `number[][]` matrices are read.
  * Pure rational data (the movement-preset catalog, the composer, the
    selection toggling) is embedded over `ℚ`, since every catalog entry is
    a decimal literal; these definitions are executable and decidable.
  * The camera state and its operations are embedded over `ℝ` (the source
    computes with IEEE doubles; the claims settled on this layer do not
    depend on rounding).
-/

namespace CameraTool

/-- Row-major 4x4 matrix of the sixteen scalars the source feeds to
`THREE.Matrix4.set(n11, n12, ..., n44)`; field `mIJ` is row I, column J of
the source's `number[][]` representation. -/
structure Mat4 (α : Type) where
  (m00 m01 m02 m03 : α)
  (m10 m11 m12 m13 : α)
  (m20 m21 m22 m23 : α)
  (m30 m31 m32 m33 : α)
  deriving DecidableEq

/-- Standard 4x4 matrix product, as performed by
`THREE.Matrix4.multiplyMatrices(a, b)`: entry (i,j) of the result is the
dot product of row i of `a` with column j of `b`. `a.multiply(b)` in the
source is `mat4Mul a b`. -/
def mat4Mul {α : Type} [Mul α] [Add α] (a b : Mat4 α) : Mat4 α where
  m00 := a.m00 * b.m00 + a.m01 * b.m10 + a.m02 * b.m20 + a.m03 * b.m30
  m01 := a.m00 * b.m01 + a.m01 * b.m11 + a.m02 * b.m21 + a.m03 * b.m31
  m02 := a.m00 * b.m02 + a.m01 * b.m12 + a.m02 * b.m22 + a.m03 * b.m32
  m03 := a.m00 * b.m03 + a.m01 * b.m13 + a.m02 * b.m23 + a.m03 * b.m33
  m10 := a.m10 * b.m00 + a.m11 * b.m10 + a.m12 * b.m20 + a.m13 * b.m30
  m11 := a.m10 * b.m01 + a.m11 * b.m11 + a.m12 * b.m21 + a.m13 * b.m31
  m12 := a.m10 * b.m02 + a.m11 * b.m12 + a.m12 * b.m22 + a.m13 * b.m32
  m13 := a.m10 * b.m03 + a.m11 * b.m13 + a.m12 * b.m23 + a.m13 * b.m33
  m20 := a.m20 * b.m00 + a.m21 * b.m10 + a.m22 * b.m20 + a.m23 * b.m30
  m21 := a.m20 * b.m01 + a.m21 * b.m11 + a.m22 * b.m21 + a.m23 * b.m31
  m22 := a.m20 * b.m02 + a.m21 * b.m12 + a.m22 * b.m22 + a.m23 * b.m32
  m23 := a.m20 * b.m03 + a.m21 * b.m13 + a.m22 * b.m23 + a.m23 * b.m33
  m30 := a.m30 * b.m00 + a.m31 * b.m10 + a.m32 * b.m20 + a.m33 * b.m30
  m31 := a.m30 * b.m01 + a.m31 * b.m11 + a.m32 * b.m21 + a.m33 * b.m31
  m32 := a.m30 * b.m02 + a.m31 * b.m12 + a.m32 * b.m22 + a.m33 * b.m32
  m33 := a.m30 * b.m03 + a.m31 * b.m13 + a.m32 * b.m23 + a.m33 * b.m33

/-- Identity matrix, the value of a fresh `new THREE.Matrix4()` and of the
source's `IDENTITY_MATRIX` constant (lines 190-195). -/
def identityMat4 {α : Type} [Zero α] [One α] : Mat4 α :=
  ⟨1, 0, 0, 0,
   0, 1, 0, 0,
   0, 0, 1, 0,
   0, 0, 0, 1⟩

/-- The `category` union type of `MovementPreset` (source line 36). -/
inductive Category where
  | translation
  | rotation
  | complex
  deriving DecidableEq

/-- A catalog entry, mirroring the `MovementPreset` interface
(source lines 32-39). The optional `conflictsWith` of the source is
modelled as a list that is empty when the field is absent. -/
structure MovementPreset where
  id : String
  name : String
  description : String
  category : Category
  conflictsWith : List String
  matrix : Mat4 ℚ
  deriving DecidableEq

/-- Source lines 43-55. -/
def forwardPreset : MovementPreset where
  id := "forward"
  name := "Forward"
  description := "Move forward (negative Z)"
  category := .translation
  conflictsWith := ["backward"]
  matrix := ⟨1, 0, 0, 0,  0, 1, 0, 0,  0, 0, 1, -(1/50),  0, 0, 0, 1⟩

/-- Source lines 56-68. -/
def backwardPreset : MovementPreset where
  id := "backward"
  name := "Backward"
  description := "Move backward (positive Z)"
  category := .translation
  conflictsWith := ["forward"]
  matrix := ⟨1, 0, 0, 0,  0, 1, 0, 0,  0, 0, 1, 1/50,  0, 0, 0, 1⟩

/-- Source lines 69-81. -/
def leftPreset : MovementPreset where
  id := "left"
  name := "Left"
  description := "Move left (negative X)"
  category := .translation
  conflictsWith := ["right"]
  matrix := ⟨1, 0, 0, -(1/50),  0, 1, 0, 0,  0, 0, 1, 0,  0, 0, 0, 1⟩

/-- Source lines 82-94. -/
def rightPreset : MovementPreset where
  id := "right"
  name := "Right"
  description := "Move right (positive X)"
  category := .translation
  conflictsWith := ["left"]
  matrix := ⟨1, 0, 0, 1/50,  0, 1, 0, 0,  0, 0, 1, 0,  0, 0, 0, 1⟩

/-- Source lines 95-107. -/
def upPreset : MovementPreset where
  id := "up"
  name := "Up"
  description := "Move up (positive Y)"
  category := .translation
  conflictsWith := ["down"]
  matrix := ⟨1, 0, 0, 0,  0, 1, 0, 1/50,  0, 0, 1, 0,  0, 0, 0, 1⟩

/-- Source lines 108-120. -/
def downPreset : MovementPreset where
  id := "down"
  name := "Down"
  description := "Move down (negative Y)"
  category := .translation
  conflictsWith := ["up"]
  matrix := ⟨1, 0, 0, 0,  0, 1, 0, -(1/50),  0, 0, 1, 0,  0, 0, 0, 1⟩

/-- Source lines 122-134. -/
def yawLeftPreset : MovementPreset where
  id := "yaw-left"
  name := "Yaw Left"
  description := "Rotate left around Y-axis"
  category := .rotation
  conflictsWith := ["yaw-right"]
  matrix := ⟨4999/5000, 0, 1/50, 0,  0, 1, 0, 0,  -(1/50), 0, 4999/5000, 0,  0, 0, 0, 1⟩

/-- Source lines 135-147. -/
def yawRightPreset : MovementPreset where
  id := "yaw-right"
  name := "Yaw Right"
  description := "Rotate right around Y-axis"
  category := .rotation
  conflictsWith := ["yaw-left"]
  matrix := ⟨4999/5000, 0, -(1/50), 0,  0, 1, 0, 0,  1/50, 0, 4999/5000, 0,  0, 0, 0, 1⟩

/-- Source lines 148-160. -/
def pitchUpPreset : MovementPreset where
  id := "pitch-up"
  name := "Pitch Up"
  description := "Look up around X-axis"
  category := .rotation
  conflictsWith := ["pitch-down"]
  matrix := ⟨1, 0, 0, 0,  0, 4999/5000, -(1/50), 0,  0, 1/50, 4999/5000, 0,  0, 0, 0, 1⟩

/-- Source lines 161-173. -/
def pitchDownPreset : MovementPreset where
  id := "pitch-down"
  name := "Pitch Down"
  description := "Look down around X-axis"
  category := .rotation
  conflictsWith := ["pitch-up"]
  matrix := ⟨1, 0, 0, 0,  0, 4999/5000, 1/50, 0,  0, -(1/50), 4999/5000, 0,  0, 0, 0, 1⟩

/-- Source lines 175-186; `conflictsWith` is absent in the source. -/
def spiralUpPreset : MovementPreset where
  id := "spiral-up"
  name := "Spiral Up"
  description := "Rotate + move up + forward"
  category := .complex
  conflictsWith := []
  matrix := ⟨999/1000, 0, 9/200, 0,  0, 1, 0, 1/100,  -9/200, 0, 999/1000, -(1/100),  0, 0, 0, 1⟩

/-- The immutable preset catalog `MOVEMENT_PRESETS` (source lines 41-187),
in source order. -/
def MOVEMENT_PRESETS : List MovementPreset :=
  [forwardPreset, backwardPreset, leftPreset, rightPreset, upPreset, downPreset,
   yawLeftPreset, yawRightPreset, pitchUpPreset, pitchDownPreset, spiralUpPreset]

/-- The category rank imposed by the `order` object of the sort comparators
(source lines 244 and 513): translation 0, rotation 1, complex 2. -/
def categoryRank : Category → Nat
  | .translation => 0
  | .rotation => 1
  | .complex => 2

/-- One step of a stable insertion sort by category rank: the new element
goes in front of the first element whose rank is not smaller, so elements
of equal rank keep their relative order. -/
def insertSorted (p : MovementPreset) : List MovementPreset → List MovementPreset
  | [] => [p]
  | q :: qs =>
      if categoryRank p.category ≤ categoryRank q.category then p :: q :: qs
      else q :: insertSorted p qs

/-- Model of `selectedPresetObjects.sort((a, b) => order[a.category] -
order[b.category])` (source lines 243-246 and 512-515).
`Array.prototype.sort` is stable (ES2019), so ties within a category
preserve the selection order; a right-to-left insertion sort has exactly
that behaviour. -/
def sortByCategoryRank : List MovementPreset → List MovementPreset
  | [] => []
  | p :: ps => insertSorted p (sortByCategoryRank ps)

/-- The `togglePreset` handler (source lines 466-486), as a function of the
previous selection. An id missing from the catalog leaves the selection
unchanged (the early `return`); a selected id is removed; otherwise every
id in the preset's `conflictsWith` is filtered out and the new id pushed. -/
def togglePreset (prev : List String) (presetId : String) : List String :=
  match MOVEMENT_PRESETS.find? (fun p => p.id == presetId) with
  | none => prev
  | some preset =>
      if prev.contains presetId then
        prev.filter (fun id => id != presetId)
      else
        (prev.filter (fun id => !(preset.conflictsWith.contains id))) ++ [presetId]

/-- The matrix committed by `combineSelectedPresets` (source lines 488-550):
identity for an empty selection, otherwise ids are resolved against the
catalog (unknown ids dropped by `.filter(Boolean)`), sorted by category
rank, and folded by post-multiplication starting from the identity. -/
def combineSelectedPresetsMatrix (selectedPresets : List String) : Mat4 ℚ :=
  if selectedPresets.length = 0 then identityMat4
  else
    let selectedPresetObjects :=
      selectedPresets.filterMap (fun id => MOVEMENT_PRESETS.find? (fun p => p.id == id))
    let sortedPresets := sortByCategoryRank selectedPresetObjects
    sortedPresets.foldl (fun acc preset => mat4Mul acc preset.matrix) identityMat4

/-- The result matrix computed by the pedagogical `MatrixCalculationDisplay`
component (source lines 238-281): resolve, sort by category rank, fold by
post-multiplication from the identity. (For an empty selection the
component renders nothing, line 236; the fold value is then the identity.) -/
def matrixCalculationDisplayResult (selectedPresets : List String) : Mat4 ℚ :=
  let selectedPresetObjects :=
    selectedPresets.filterMap (fun id => MOVEMENT_PRESETS.find? (fun p => p.id == id))
  let sortedPresets := sortByCategoryRank selectedPresetObjects
  sortedPresets.foldl (fun acc preset => mat4Mul acc preset.matrix) identityMat4

/-- No pair of distinct ids in the current selection is in conflict: no
selected preset lists another selected preset in its `conflictsWith`. -/
def ConflictFree (sel : List String) : Prop :=
  ∀ p ∈ MOVEMENT_PRESETS, ∀ q ∈ MOVEMENT_PRESETS,
    p.id ∈ sel → q.id ∈ sel → q.id ∉ p.conflictsWith

/-
Camera state layer. The source manipulates IEEE doubles through the
three.js matrix library; it is embedded here over `ℝ`. Every claim settled
on this layer either holds identically over the reals or fails by a margin
(0.5 and more) far above double rounding error.
-/

/-- A 3-component vector of reals, standing for the `[number, number,
number]` triples of the source and for `THREE.Vector3`. -/
structure Vec3 where
  x : ℝ
  y : ℝ
  z : ℝ

/-- The `boundaries` record of `CameraState` (source lines 26-29). -/
structure Boundaries where
  min : Vec3
  max : Vec3

/-- The `CameraState` aggregate (source lines 18-30). -/
structure CameraState where
  position : Vec3
  rotation : Vec3
  transformMatrix : Mat4 ℝ
  movementMatrix : Mat4 ℝ
  initialPosition : Vec3
  initialRotation : Vec3
  isAnimating : Bool
  boundaries : Boundaries

/-- A quaternion, as `THREE.Quaternion` (components x, y, z, w). -/
structure Quat where
  x : ℝ
  y : ℝ
  z : ℝ
  w : ℝ

/-- The triple written by `THREE.Matrix4.decompose(position, quaternion,
scale)`. -/
structure Decomposed where
  pos : Vec3
  quat : Quat
  scale : Vec3

/-- Overwrite one cell of a matrix, as the `newMatrix[i][j] = newVal`
writes of the matrix `NumberInput` handlers do. -/
def Mat4.setCell {α : Type} (m : Mat4 α) (i j : Fin 4) (v : α) : Mat4 α :=
  match i, j with
  | 0, 0 => { m with m00 := v }
  | 0, 1 => { m with m01 := v }
  | 0, 2 => { m with m02 := v }
  | 0, 3 => { m with m03 := v }
  | 1, 0 => { m with m10 := v }
  | 1, 1 => { m with m11 := v }
  | 1, 2 => { m with m12 := v }
  | 1, 3 => { m with m13 := v }
  | 2, 0 => { m with m20 := v }
  | 2, 1 => { m with m21 := v }
  | 2, 2 => { m with m22 := v }
  | 2, 3 => { m with m23 := v }
  | 3, 0 => { m with m30 := v }
  | 3, 1 => { m with m31 := v }
  | 3, 2 => { m with m32 := v }
  | 3, 3 => { m with m33 := v }

/-- Overwrite one component of a triple, as the `newPos[i] = newVal`
writes of the position and rotation `NumberInput` handlers do. -/
def Vec3.setComp (v : Vec3) (i : Fin 3) (value : ℝ) : Vec3 :=
  match i with
  | 0 => { v with x := value }
  | 1 => { v with y := value }
  | 2 => { v with z := value }

/-- The 4x4 determinant exactly as `THREE.Matrix4.determinant` computes it
(`nIJ` is the scalar called `nIJ` there, i.e. row I-1, column J-1). It is
consulted by `decompose` only for the sign given to the x scale. -/
def m4det (m : Mat4 ℝ) : ℝ :=
  m.m30 * (m.m03 * m.m12 * m.m21 - m.m02 * m.m13 * m.m21 - m.m03 * m.m11 * m.m22 +
           m.m01 * m.m13 * m.m22 + m.m02 * m.m11 * m.m23 - m.m01 * m.m12 * m.m23) +
  m.m31 * (m.m00 * m.m12 * m.m23 - m.m00 * m.m13 * m.m22 + m.m03 * m.m10 * m.m22 -
           m.m02 * m.m10 * m.m23 + m.m02 * m.m13 * m.m20 - m.m03 * m.m12 * m.m20) +
  m.m32 * (m.m00 * m.m13 * m.m21 - m.m00 * m.m11 * m.m23 - m.m03 * m.m10 * m.m21 +
           m.m01 * m.m10 * m.m23 + m.m03 * m.m11 * m.m20 - m.m01 * m.m13 * m.m20) +
  m.m33 * (-(m.m02 * m.m11 * m.m20) - m.m00 * m.m12 * m.m21 + m.m00 * m.m11 * m.m22 +
           m.m02 * m.m10 * m.m21 - m.m01 * m.m10 * m.m22 + m.m01 * m.m12 * m.m20)

noncomputable section

/-- The matrix built from a position and an Euler triple by
`matrix.makeRotationFromEuler(rotation)` (three.js, default order XYZ)
followed by `matrix.setPosition(position)`; this is the recomposition used
by `updateFromPositionRotation` (source lines 406-423) and by the deferred
block of `resetCamera` (source lines 434-451). -/
def composeM (p r : Vec3) : Mat4 ℝ :=
  let a := Real.cos r.x
  let b := Real.sin r.x
  let c := Real.cos r.y
  let d := Real.sin r.y
  let e := Real.cos r.z
  let f := Real.sin r.z
  let ae := a * e
  let af := a * f
  let be := b * e
  let bf := b * f
  ⟨c * e, -(c * f), d, p.x,
   af + be * d, ae - bf * d, -(b * c), p.y,
   bf - ae * d, be + af * d, a * c, p.z,
   0, 0, 0, 1⟩

/-- The two-argument arctangent, as `Math.atan2(y, x)` (up to the
signed-zero cases of IEEE arithmetic, which no claim exercises). -/
def atan2 (y x : ℝ) : ℝ :=
  if 0 < x then Real.arctan (y / x)
  else if x < 0 then
    (if y < 0 then Real.arctan (y / x) - Real.pi else Real.arctan (y / x) + Real.pi)
  else if 0 < y then Real.pi / 2
  else if y < 0 then -(Real.pi / 2)
  else 0

/-- The quaternion extracted from the rotation part of a matrix by
`THREE.Quaternion.setFromRotationMatrix` (trace-branching algorithm;
`mIJ` of three.js is row I-1 column J-1 here). -/
def quatFromRotationMatrix (m : Mat4 ℝ) : Quat :=
  let trace := m.m00 + m.m11 + m.m22
  if 0 < trace then
    let s := 0.5 / Real.sqrt (trace + 1.0)
    ⟨(m.m21 - m.m12) * s, (m.m02 - m.m20) * s, (m.m10 - m.m01) * s, 0.25 / s⟩
  else if m.m11 < m.m00 ∧ m.m22 < m.m00 then
    let s := 2.0 * Real.sqrt (1.0 + m.m00 - m.m11 - m.m22)
    ⟨0.25 * s, (m.m01 + m.m10) / s, (m.m02 + m.m20) / s, (m.m21 - m.m12) / s⟩
  else if m.m22 < m.m11 then
    let s := 2.0 * Real.sqrt (1.0 + m.m11 - m.m00 - m.m22)
    ⟨(m.m01 + m.m10) / s, 0.25 * s, (m.m12 + m.m21) / s, (m.m02 - m.m20) / s⟩
  else
    let s := 2.0 * Real.sqrt (1.0 + m.m22 - m.m00 - m.m11)
    ⟨(m.m02 + m.m20) / s, (m.m12 + m.m21) / s, 0.25 * s, (m.m10 - m.m01) / s⟩

/-- The rotation matrix of a quaternion, as
`THREE.Matrix4.makeRotationFromQuaternion` builds it. -/
def makeRotationFromQuaternion (q : Quat) : Mat4 ℝ :=
  let x2 := q.x + q.x
  let y2 := q.y + q.y
  let z2 := q.z + q.z
  let xx := q.x * x2
  let xy := q.x * y2
  let xz := q.x * z2
  let yy := q.y * y2
  let yz := q.y * z2
  let zz := q.z * z2
  let wx := q.w * x2
  let wy := q.w * y2
  let wz := q.w * z2
  ⟨1 - (yy + zz), xy - wz, xz + wy, 0,
   xy + wz, 1 - (xx + zz), yz - wx, 0,
   xz - wy, yz + wx, 1 - (xx + yy), 0,
   0, 0, 0, 1⟩

/-- Euler extraction from a rotation matrix,
`THREE.Euler.setFromRotationMatrix` for the default order XYZ;
`clamp(v, -1, 1)` of three.js is `max (-1) (min 1 v)`. -/
def eulerXYZFromRotationMatrix (m : Mat4 ℝ) : Vec3 :=
  let y := Real.arcsin (max (-1) (min 1 m.m02))
  if |m.m02| < 0.9999999 then
    ⟨atan2 (-m.m12) m.m22, y, atan2 (-m.m01) m.m00⟩
  else
    ⟨atan2 m.m21 m.m11, y, 0⟩

/-- `new THREE.Euler().setFromQuaternion(quaternion)` (source line 1027):
three.js converts the quaternion to a rotation matrix and reads the Euler
angles off that matrix. -/
def eulerXYZFromQuaternion (q : Quat) : Vec3 :=
  eulerXYZFromRotationMatrix (makeRotationFromQuaternion q)

/-- `THREE.Matrix4.decompose(position, quaternion, scale)`: the translation
is read directly from the last column; the three column norms give the
scale (x negated when the determinant is negative); the quaternion is
extracted from the scale-normalized rotation block. -/
def decomposeM4 (m : Mat4 ℝ) : Decomposed :=
  let sx0 := Real.sqrt (m.m00 * m.m00 + m.m10 * m.m10 + m.m20 * m.m20)
  let sy := Real.sqrt (m.m01 * m.m01 + m.m11 * m.m11 + m.m21 * m.m21)
  let sz := Real.sqrt (m.m02 * m.m02 + m.m12 * m.m12 + m.m22 * m.m22)
  let sx := if m4det m < 0 then -sx0 else sx0
  let pos : Vec3 := ⟨m.m03, m.m13, m.m23⟩
  let invSX := 1 / sx
  let invSY := 1 / sy
  let invSZ := 1 / sz
  let m1 : Mat4 ℝ :=
    { m with
        m00 := m.m00 * invSX, m10 := m.m10 * invSX, m20 := m.m20 * invSX,
        m01 := m.m01 * invSY, m11 := m.m11 * invSY, m21 := m.m21 * invSY,
        m02 := m.m02 * invSZ, m12 := m.m12 * invSZ, m22 := m.m22 * invSZ }
  ⟨pos, quatFromRotationMatrix m1, ⟨sx, sy, sz⟩⟩

/-- The `updateFromMatrix` callback (source lines 373-404). The source
calls `matrix.decompose(position, new THREE.Quaternion().setFromEuler(rotation), scale)`:
`decompose` writes the decomposed rotation into the freshly built
temporary quaternion, while the `THREE.Euler` object `rotation` - default
constructed at (0,0,0) - is never written; the state update then reads
`rotation.x`, `rotation.y`, `rotation.z` off that untouched Euler. So the
position is re-derived as the translation column of `transformMatrix`, and
the rotation is re-derived as (0,0,0) whatever the matrix is. -/
def updateFromMatrix (s : CameraState) : CameraState :=
  { s with
      position := (decomposeM4 s.transformMatrix).pos,
      rotation := ⟨0, 0, 0⟩ }

/-- The `updateFromPositionRotation` callback (source lines 406-423). The
source schedules it through `setTimeout(. , 0)` after the field write; the
write and the re-derivation are modelled as one transition on the updated
state. -/
def updateFromPositionRotation (s : CameraState) : CameraState :=
  { s with transformMatrix := composeM s.position s.rotation }

/-- One position `NumberInput` edit (source lines 618-632): the input is
rendered with `disabled={cameraState.isAnimating}`, and a disabled input
never fires its change handler, so while animating the operation leaves
the state untouched; otherwise the component is written and
`updateFromPositionRotation` re-derives the matrix. -/
def setPositionComponent (s : CameraState) (i : Fin 3) (v : ℝ) : CameraState :=
  if s.isAnimating then s
  else updateFromPositionRotation { s with position := s.position.setComp i v }

/-- One rotation `NumberInput` edit (source lines 638-652), guarded by the
same `disabled={cameraState.isAnimating}`. -/
def setRotationComponent (s : CameraState) (i : Fin 3) (v : ℝ) : CameraState :=
  if s.isAnimating then s
  else updateFromPositionRotation { s with rotation := s.rotation.setComp i v }

/-- One transform-matrix `NumberInput` edit (source lines 789-805), guarded
by `disabled={cameraState.isAnimating}`; when enabled the cell is written
and `updateFromMatrix` re-derives position/rotation. -/
def setMatrixCell (s : CameraState) (i j : Fin 4) (v : ℝ) : CameraState :=
  if s.isAnimating then s
  else updateFromMatrix { s with transformMatrix := s.transformMatrix.setCell i j v }

/-- One movement-matrix `NumberInput` edit (source lines 756-771): no
`disabled` guard and no re-derivation. -/
def setMovementMatrixCell (s : CameraState) (i j : Fin 4) (v : ℝ) : CameraState :=
  { s with movementMatrix := s.movementMatrix.setCell i j v }

/-- The synchronous part of `resetCamera` (source lines 426-431): restore
the initial pose and stop animating. The transform matrix is not touched
here. -/
def resetCameraImmediate (s : CameraState) : CameraState :=
  { s with
      position := s.initialPosition,
      rotation := s.initialRotation,
      isAnimating := false }

/-- The deferred part of `resetCamera` (source lines 434-451, a
`setTimeout(. , 0)` block): rebuild the transform matrix from the initial
pose. The closure reads the initial pose captured at render time, which the
synchronous part does not change, so it equals `s.initialPosition` /
`s.initialRotation`. -/
def resetCameraDeferred (s : CameraState) : CameraState :=
  { s with transformMatrix := composeM s.initialPosition s.initialRotation }

/-- The complete `resetCamera` command (both parts, in order). -/
def resetCamera (s : CameraState) : CameraState :=
  resetCameraDeferred (resetCameraImmediate s)

/-- `setInitialPosition` (source lines 454-460). -/
def setInitialPosition (s : CameraState) : CameraState :=
  { s with initialPosition := s.position, initialRotation := s.rotation }

/-- `toggleAnimation` (source lines 462-464). -/
def toggleAnimation (s : CameraState) : CameraState :=
  { s with isAnimating := !s.isAnimating }

/-- The `shouldReset` condition of the per-frame callback (source lines
1030-1036): some coordinate of the decomposed position lies strictly
outside the boundary box. -/
def shouldReset (s : CameraState) (p : Vec3) : Prop :=
  p.x < s.boundaries.min.x ∨ p.x > s.boundaries.max.x ∨
  p.y < s.boundaries.min.y ∨ p.y > s.boundaries.max.y ∨
  p.z < s.boundaries.min.z ∨ p.z > s.boundaries.max.z

open Classical in
/-- One invocation of the `useFrame` callback of `MainCameraView` (source
lines 978-1064) as a state transition: while animating, post-multiply the
transform matrix by the movement matrix, decompose, and either reset the
pose to the initial one (out of bounds; the transform matrix is left as it
was) or commit the new matrix with its decomposed pose. The trailing
`camera.position.set` / `camera.rotation.set` calls only copy state to the
external renderer. -/
def useFrameStep (s : CameraState) : CameraState :=
  if s.isAnimating then
    let next := mat4Mul s.transformMatrix s.movementMatrix
    let d := decomposeM4 next
    let rotation := eulerXYZFromQuaternion d.quat
    if shouldReset s d.pos then
      { s with position := s.initialPosition, rotation := s.initialRotation }
    else
      { s with position := d.pos, rotation := rotation, transformMatrix := next }
  else s

/-- The initial `useState<CameraState>` value (source lines 335-357). -/
def initialCameraState : CameraState where
  position := ⟨1.0, 2.0, 6.0⟩
  rotation := ⟨0, 0, 0⟩
  transformMatrix := ⟨1, 0, 0, 1.0,  0, 1, 0, 2.0,  0, 0, 1, 6.0,  0, 0, 0, 1⟩
  movementMatrix := identityMat4
  initialPosition := ⟨1.0, 2.0, 6.0⟩
  initialRotation := ⟨0, 0, 0⟩
  isAnimating := false
  boundaries := ⟨⟨-8, 0.5, -8⟩, ⟨8, 6, 8⟩⟩

/-- Concrete animating state for the out-of-bounds witness: transform at
x = 8.48 and the `right` movement (x += 0.02), so the next decomposed
position is (8.5, 2, 0), outside max x = 8 - the boundary-reset example of
the specification. -/
def oobWitnessState : CameraState :=
  { initialCameraState with
      isAnimating := true,
      transformMatrix := ⟨1, 0, 0, 8.48,  0, 1, 0, 2,  0, 0, 1, 0,  0, 0, 0, 1⟩,
      movementMatrix := ⟨1, 0, 0, 0.02,  0, 1, 0, 0,  0, 0, 1, 0,  0, 0, 0, 1⟩ }

/-- Concrete animating state with a degenerate boundary box: min x = 9
exceeds max x = 8. -/
def degenerateBoundsState : CameraState :=
  { initialCameraState with
      isAnimating := true,
      boundaries := ⟨⟨9, 0.5, -8⟩, ⟨8, 6, 8⟩⟩ }

/-- Concrete animating state whose next decomposed position (8, 2, 0) sits
exactly on the max x boundary (movement matrix is the identity). -/
def boundaryEdgeState : CameraState :=
  { initialCameraState with
      isAnimating := true,
      transformMatrix := ⟨1, 0, 0, 8,  0, 1, 0, 2,  0, 0, 1, 0,  0, 0, 0, 1⟩ }

/-- Concrete animating state for the disabled-edit witness. -/
def animatingState : CameraState :=
  { initialCameraState with isAnimating := true }

/-- Concrete state whose initial pose (the origin) differs from its current
transform matrix, for the reset-atomicity counterexample. -/
def staleResetState : CameraState :=
  { initialCameraState with initialPosition := ⟨0, 0, 0⟩ }

/-- Concrete state whose transform matrix is the rotation by 90 degrees
about Y (an exact rotation matrix) with translation (1, 2, 7). -/
def rotatedState : CameraState :=
  { initialCameraState with
      transformMatrix := ⟨0, 0, 1, 1,  0, 1, 0, 2,  -1, 0, 0, 7,  0, 0, 0, 1⟩ }

/-- The matrix composed from position (1, 2, 6) and rotation (0, pi/3, 0),
the round-trip input of claim C7. -/
def roundtripInput : Mat4 ℝ := composeM ⟨1, 2, 6⟩ ⟨0, Real.pi / 3, 0⟩

/-- The state after the engine re-derives position/rotation from
`roundtripInput`. -/
def roundtripState : CameraState :=
  updateFromMatrix { initialCameraState with transformMatrix := roundtripInput }

end

lemma catalog_conflicts_symm :
    ∀ p ∈ MOVEMENT_PRESETS, ∀ q ∈ MOVEMENT_PRESETS,
      p.id ∈ q.conflictsWith → q.id ∈ p.conflictsWith := by decide

lemma catalog_no_self_conflict :
    ∀ p ∈ MOVEMENT_PRESETS, p.id ∉ p.conflictsWith := by decide

lemma catalog_ids_nodup : (MOVEMENT_PRESETS.map (fun p => p.id)).Nodup := by decide

lemma catalog_id_injective :
    ∀ p ∈ MOVEMENT_PRESETS, ∀ q ∈ MOVEMENT_PRESETS, p.id = q.id → p = q :=
  fun _p hp _q hq h => List.inj_on_of_nodup_map catalog_ids_nodup hp hq h

lemma categoryRank_injective :
    ∀ c d : Category, categoryRank c = categoryRank d → c = d := by
  intro c d h
  cases c <;> cases d <;> simp_all [categoryRank]

lemma conflictFree_nil : ConflictFree [] := by
  intro p _ q _ hp
  simp at hp

lemma conflictFree_togglePreset {sel : List String} (h : ConflictFree sel) (pid : String) :
    ConflictFree (togglePreset sel pid) := by
  unfold togglePreset
  cases hfind : MOVEMENT_PRESETS.find? (fun p => p.id == pid) with
  | none => exact h
  | some preset =>
      have hpre : preset ∈ MOVEMENT_PRESETS := List.mem_of_find?_eq_some hfind
      have hid : preset.id = pid := by
        have := List.find?_some hfind
        simpa using this
      by_cases hmem : sel.contains pid = true
      · simp only [hmem, if_true]
        intro p hp q hq hps hqs
        exact h p hp q hq (List.mem_filter.mp hps).1 (List.mem_filter.mp hqs).1
      · simp only [hmem, if_false, Bool.false_eq_true]
        intro p hp q hq hps hqs
        rcases List.mem_append.mp hps with hpf | hpl
        · rcases List.mem_append.mp hqs with hqf | hql
          · exact h p hp q hq (List.mem_filter.mp hpf).1 (List.mem_filter.mp hqf).1
          · -- q is the newly pushed preset, p survived the conflict filter
            have hqid : q.id = pid := by simpa using hql
            have hpnc : p.id ∉ preset.conflictsWith := by
              have := (List.mem_filter.mp hpf).2
              simpa using this
            intro hcon
            rw [hqid, ← hid] at hcon
            exact hpnc (catalog_conflicts_symm preset hpre p hp hcon)
        · -- p is the newly pushed preset
          have hpid : p.id = pid := by simpa using hpl
          have hpeq : p = preset :=
            catalog_id_injective p hp preset hpre (hpid.trans hid.symm)
          rcases List.mem_append.mp hqs with hqf | hql
          · have hq2 : q.id ∉ preset.conflictsWith := by
              have := (List.mem_filter.mp hqf).2
              simpa using this
            rw [hpeq]
            exact hq2
          · have hqid : q.id = pid := by simpa using hql
            rw [hpeq, hqid, ← hid]
            exact catalog_no_self_conflict preset hpre

lemma conflictFree_foldl (ops : List String) :
    ∀ sel, ConflictFree sel → ConflictFree (ops.foldl togglePreset sel) := by
  induction ops with
  | nil => exact fun _ h => h
  | cons o os ih => exact fun sel h => ih _ (conflictFree_togglePreset h o)

/-- C6 — Conflict exclusivity of preset toggling: every selection reachable
from the empty selection by `togglePreset` calls is conflict-free (no
selected preset lists another selected preset in `conflictsWith`);
toggling an id that is already selected removes it; and toggling `forward`
then `backward` from the empty selection yields exactly `["backward"]`. -/
theorem togglePreset_conflict_exclusive :
    (∀ ops : List String, ConflictFree (ops.foldl togglePreset [])) ∧
    (∀ (sel : List String) (pid : String),
        (MOVEMENT_PRESETS.find? (fun p => p.id == pid)).isSome = true →
        sel.contains pid = true →
        togglePreset sel pid = sel.filter (fun id => id != pid)) ∧
    ["forward", "backward"].foldl togglePreset [] = ["backward"] := by
  refine ⟨fun ops => conflictFree_foldl ops [] conflictFree_nil, ?_, by decide⟩
  intro sel pid hsome hmem
  unfold togglePreset
  rcases Option.isSome_iff_exists.mp hsome with ⟨preset, hfind⟩
  rw [hfind]
  show (if sel.contains pid = true then List.filter (fun id => id != pid) sel
        else List.filter (fun id => !preset.conflictsWith.contains id) sel ++ [pid]) =
      List.filter (fun id => id != pid) sel
  exact if_pos hmem

/-- Witness for C6: a concrete instance of the deselection clause. -/
theorem togglePreset_conflict_exclusive_witness :
    (MOVEMENT_PRESETS.find? (fun p => p.id == "forward")).isSome = true ∧
    ["forward"].contains "forward" = true ∧
    togglePreset ["forward"] "forward" = ["forward"].filter (fun id => id != "forward") :=
  ⟨by decide, by decide,
   togglePreset_conflict_exclusive.2.1 ["forward"] "forward" (by decide) (by decide)⟩

/-- C5 — counterexample: the committed movement matrix is not independent
of the selection order. The set {yaw-left, pitch-up} selected in the two
possible orders produces two different matrices, because the stable sort
leaves the two rotation presets in selection order and their matrices do
not commute (entry (0,1) is 1/2500 in one product and 0 in the other). -/
theorem combine_selection_order_dependent :
    combineSelectedPresetsMatrix ["yaw-left", "pitch-up"] ≠
    combineSelectedPresetsMatrix ["pitch-up", "yaw-left"] := by
  intro h
  have e1 : combineSelectedPresetsMatrix ["yaw-left", "pitch-up"] =
      mat4Mul (mat4Mul identityMat4 yawLeftPreset.matrix) pitchUpPreset.matrix := rfl
  have e2 : combineSelectedPresetsMatrix ["pitch-up", "yaw-left"] =
      mat4Mul (mat4Mul identityMat4 pitchUpPreset.matrix) yawLeftPreset.matrix := rfl
  rw [e1, e2] at h
  have h01 := congrArg Mat4.m01 h
  simp only [mat4Mul, identityMat4, yawLeftPreset, pitchUpPreset] at h01
  norm_num at h01

/-- C5 — amended: the composed matrix is independent of the selection order
whenever the selected presets fall in pairwise distinct categories; here,
for any two ids resolving to presets of different categories, both
selection orders commit the same matrix (so {forward, yaw-left} agrees in
both orders, while two same-category presets such as {yaw-left, pitch-up}
may not — see the counterexample). -/
theorem combine_distinct_categories_order_independent :
    ∀ (a b : String) (pa pb : MovementPreset),
      MOVEMENT_PRESETS.find? (fun p => p.id == a) = some pa →
      MOVEMENT_PRESETS.find? (fun p => p.id == b) = some pb →
      pa.category ≠ pb.category →
      combineSelectedPresetsMatrix [a, b] = combineSelectedPresetsMatrix [b, a] := by
  intro a b pa pb hfa hfb hcat
  unfold combineSelectedPresetsMatrix
  rw [if_neg (by simp), if_neg (by simp)]
  simp only [List.filterMap_cons, hfa, hfb, List.filterMap_nil]
  have hrk : categoryRank pa.category ≠ categoryRank pb.category :=
    fun hr => hcat (categoryRank_injective _ _ hr)
  rcases Nat.lt_or_ge (categoryRank pa.category) (categoryRank pb.category) with hlt | hge
  · have h1 : sortByCategoryRank [pa, pb] = [pa, pb] := by
      simp [sortByCategoryRank, insertSorted, Nat.le_of_lt hlt]
    have h2 : sortByCategoryRank [pb, pa] = [pa, pb] := by
      simp [sortByCategoryRank, insertSorted, Nat.not_le.mpr hlt]
    rw [h1, h2]
  · have hgt : categoryRank pb.category < categoryRank pa.category :=
      lt_of_le_of_ne hge (fun hr => hrk hr.symm)
    have h1 : sortByCategoryRank [pa, pb] = [pb, pa] := by
      simp [sortByCategoryRank, insertSorted, Nat.not_le.mpr hgt]
    have h2 : sortByCategoryRank [pb, pa] = [pb, pa] := by
      simp [sortByCategoryRank, insertSorted, Nat.le_of_lt hgt]
    rw [h1, h2]

/-- Witness for C5 (amended): forward and yaw-left, the concrete pair named
by the specification, commit the same matrix in both selection orders. -/
theorem combine_distinct_categories_order_independent_witness :
    MOVEMENT_PRESETS.find? (fun p => p.id == "forward") = some forwardPreset ∧
    MOVEMENT_PRESETS.find? (fun p => p.id == "yaw-left") = some yawLeftPreset ∧
    forwardPreset.category ≠ yawLeftPreset.category ∧
    combineSelectedPresetsMatrix ["forward", "yaw-left"] =
      combineSelectedPresetsMatrix ["yaw-left", "forward"] :=
  ⟨rfl, rfl, by decide,
   combine_distinct_categories_order_independent "forward" "yaw-left"
     forwardPreset yawLeftPreset rfl rfl (by decide)⟩

/-- C8 — Display/commit equivalence: for every selection, the result matrix
of the step-by-step `MatrixCalculationDisplay` computation equals the
matrix committed by `combineSelectedPresets`; both resolve ids, sort by
category rank, and fold by post-multiplication from the identity in the
same way. (For the empty selection the display renders nothing, source
line 236; its fold value is the identity, which is exactly what the
combine command commits.) -/
theorem display_combine_agree :
    ∀ sel : List String,
      matrixCalculationDisplayResult sel = combineSelectedPresetsMatrix sel := by
  intro sel
  cases sel with
  | nil => rfl
  | cons x xs =>
      unfold matrixCalculationDisplayResult combineSelectedPresetsMatrix
      rw [if_neg (by simp)]

lemma useFrameStep_of_oob {s : CameraState} (hanim : s.isAnimating = true)
    (hoob : shouldReset s (decomposeM4 (mat4Mul s.transformMatrix s.movementMatrix)).pos) :
    useFrameStep s =
      { s with position := s.initialPosition, rotation := s.initialRotation } := by
  unfold useFrameStep
  simp only [hanim, if_true]
  rw [if_pos hoob]

lemma useFrameStep_of_inbounds {s : CameraState} (hanim : s.isAnimating = true)
    (hin : ¬ shouldReset s (decomposeM4 (mat4Mul s.transformMatrix s.movementMatrix)).pos) :
    useFrameStep s =
      { s with
          position := (decomposeM4 (mat4Mul s.transformMatrix s.movementMatrix)).pos,
          rotation :=
            eulerXYZFromQuaternion
              (decomposeM4 (mat4Mul s.transformMatrix s.movementMatrix)).quat,
          transformMatrix := mat4Mul s.transformMatrix s.movementMatrix } := by
  unfold useFrameStep
  simp only [hanim, if_true]
  rw [if_neg hin]

/-- C2 — Out-of-bounds step: in every animating state whose next matrix
`mat4Mul transformMatrix movementMatrix` decomposes to a position with
some coordinate outside the boundary box, the frame step does not commit
the next matrix: the resulting state keeps `transformMatrix` (and every
other field, `isAnimating = true` included) and only restores `position :=
initialPosition` and `rotation := initialRotation`, so the out-of-bounds
position is never the committed camera position. -/
theorem animationStep_out_of_bounds_resets (s : CameraState)
    (hanim : s.isAnimating = true)
    (hoob : shouldReset s (decomposeM4 (mat4Mul s.transformMatrix s.movementMatrix)).pos) :
    useFrameStep s =
      { s with position := s.initialPosition, rotation := s.initialRotation } :=
  useFrameStep_of_oob hanim hoob

/-- Witness for C2: the boundary-reset example of the specification - the
step would move the position to (8.5, 2, 0), outside max x = 8. -/
theorem animationStep_out_of_bounds_resets_witness :
    oobWitnessState.isAnimating = true ∧
    shouldReset oobWitnessState
      (decomposeM4 (mat4Mul oobWitnessState.transformMatrix oobWitnessState.movementMatrix)).pos ∧
    useFrameStep oobWitnessState =
      { oobWitnessState with
          position := oobWitnessState.initialPosition,
          rotation := oobWitnessState.initialRotation } := by
  have hoob : shouldReset oobWitnessState
      (decomposeM4 (mat4Mul oobWitnessState.transformMatrix oobWitnessState.movementMatrix)).pos := by
    refine Or.inr (Or.inl ?_)
    show (decomposeM4 (mat4Mul oobWitnessState.transformMatrix oobWitnessState.movementMatrix)).pos.x >
      oobWitnessState.boundaries.max.x
    norm_num [oobWitnessState, initialCameraState, decomposeM4, mat4Mul]
  exact ⟨rfl, hoob, animationStep_out_of_bounds_resets oobWitnessState rfl hoob⟩

/-- C9 — Degenerate boundary box: if min exceeds max on some axis, the
boundary check holds for every possible decomposed position, so every
animating frame step takes the reset branch and never commits the next
matrix. -/
theorem degenerate_bounds_always_reset (s : CameraState)
    (hanim : s.isAnimating = true)
    (hdeg : s.boundaries.max.x < s.boundaries.min.x ∨
            s.boundaries.max.y < s.boundaries.min.y ∨
            s.boundaries.max.z < s.boundaries.min.z) :
    useFrameStep s =
      { s with position := s.initialPosition, rotation := s.initialRotation } := by
  apply useFrameStep_of_oob hanim
  set p := (decomposeM4 (mat4Mul s.transformMatrix s.movementMatrix)).pos with hp
  rcases hdeg with hx | hy | hz
  · rcases lt_or_le p.x s.boundaries.min.x with h | h
    · exact Or.inl h
    · exact Or.inr (Or.inl (lt_of_lt_of_le hx h))
  · rcases lt_or_le p.y s.boundaries.min.y with h | h
    · exact Or.inr (Or.inr (Or.inl h))
    · exact Or.inr (Or.inr (Or.inr (Or.inl (lt_of_lt_of_le hy h))))
  · rcases lt_or_le p.z s.boundaries.min.z with h | h
    · exact Or.inr (Or.inr (Or.inr (Or.inr (Or.inl h))))
    · exact Or.inr (Or.inr (Or.inr (Or.inr (Or.inr (lt_of_lt_of_le hz h)))))

/-- Witness for C9: with min x = 9 and max x = 8 the animating step resets. -/
theorem degenerate_bounds_always_reset_witness :
    degenerateBoundsState.isAnimating = true ∧
    degenerateBoundsState.boundaries.max.x < degenerateBoundsState.boundaries.min.x ∧
    useFrameStep degenerateBoundsState =
      { degenerateBoundsState with
          position := degenerateBoundsState.initialPosition,
          rotation := degenerateBoundsState.initialRotation } := by
  have hdeg : degenerateBoundsState.boundaries.max.x < degenerateBoundsState.boundaries.min.x := by
    norm_num [degenerateBoundsState]
  exact ⟨rfl, hdeg,
    degenerate_bounds_always_reset degenerateBoundsState rfl (Or.inl hdeg)⟩

/-- C10 — Inclusive boundaries: the boundary check uses strict comparisons,
so an animating step whose decomposed next position has every coordinate
inside the closed box (boundary values included) commits: the transform
matrix becomes the next matrix and position/rotation become its
decomposition. -/
theorem boundary_inclusive_commit (s : CameraState)
    (hanim : s.isAnimating = true)
    (hin :
      s.boundaries.min.x ≤ (decomposeM4 (mat4Mul s.transformMatrix s.movementMatrix)).pos.x ∧
      (decomposeM4 (mat4Mul s.transformMatrix s.movementMatrix)).pos.x ≤ s.boundaries.max.x ∧
      s.boundaries.min.y ≤ (decomposeM4 (mat4Mul s.transformMatrix s.movementMatrix)).pos.y ∧
      (decomposeM4 (mat4Mul s.transformMatrix s.movementMatrix)).pos.y ≤ s.boundaries.max.y ∧
      s.boundaries.min.z ≤ (decomposeM4 (mat4Mul s.transformMatrix s.movementMatrix)).pos.z ∧
      (decomposeM4 (mat4Mul s.transformMatrix s.movementMatrix)).pos.z ≤ s.boundaries.max.z) :
    useFrameStep s =
      { s with
          position := (decomposeM4 (mat4Mul s.transformMatrix s.movementMatrix)).pos,
          rotation :=
            eulerXYZFromQuaternion
              (decomposeM4 (mat4Mul s.transformMatrix s.movementMatrix)).quat,
          transformMatrix := mat4Mul s.transformMatrix s.movementMatrix } := by
  apply useFrameStep_of_inbounds hanim
  obtain ⟨h1, h2, h3, h4, h5, h6⟩ := hin
  intro hsr
  rcases hsr with h | h | h | h | h | h
  · exact absurd h (not_lt.mpr h1)
  · exact absurd h (not_lt.mpr h2)
  · exact absurd h (not_lt.mpr h3)
  · exact absurd h (not_lt.mpr h4)
  · exact absurd h (not_lt.mpr h5)
  · exact absurd h (not_lt.mpr h6)

/-- Witness for C10: the next position (8, 2, 0) lands exactly on the max x
boundary and the step still commits. -/
theorem boundary_inclusive_commit_witness :
    boundaryEdgeState.isAnimating = true ∧
    (decomposeM4 (mat4Mul boundaryEdgeState.transformMatrix boundaryEdgeState.movementMatrix)).pos.x =
      boundaryEdgeState.boundaries.max.x ∧
    useFrameStep boundaryEdgeState =
      { boundaryEdgeState with
          position :=
            (decomposeM4 (mat4Mul boundaryEdgeState.transformMatrix boundaryEdgeState.movementMatrix)).pos,
          rotation :=
            eulerXYZFromQuaternion
              (decomposeM4 (mat4Mul boundaryEdgeState.transformMatrix boundaryEdgeState.movementMatrix)).quat,
          transformMatrix :=
            mat4Mul boundaryEdgeState.transformMatrix boundaryEdgeState.movementMatrix } := by
  refine ⟨rfl, ?_, boundary_inclusive_commit boundaryEdgeState rfl ?_⟩
  · norm_num [boundaryEdgeState, initialCameraState, decomposeM4, mat4Mul, identityMat4]
  · refine ⟨?_, ?_, ?_, ?_, ?_, ?_⟩ <;>
      norm_num [boundaryEdgeState, initialCameraState, decomposeM4, mat4Mul, identityMat4]

/-- C3 — counterexample to atomicity: `resetCamera` re-derives the
transform matrix only in a deferred `setTimeout` block, so right after the
synchronous part the state is observable with the restored pose but the
stale matrix: here the restored position is the origin while the stale
matrix still translates to (1, 2, 6). -/
theorem resetCamera_intermediate_stale :
    (resetCameraImmediate staleResetState).transformMatrix ≠
      composeM (resetCameraImmediate staleResetState).position
        (resetCameraImmediate staleResetState).rotation := by
  intro h
  have h03 := congrArg Mat4.m03 h
  simp only [resetCameraImmediate, staleResetState, initialCameraState, composeM] at h03
  norm_num at h03

/-- C3 — amended: once both parts of `resetCamera` have run, the state has
`position = initialPosition`, `rotation = initialRotation`,
`isAnimating = false` and `transformMatrix = composeM initialPosition
initialRotation`, and running `resetCamera` twice in a row yields the same
state both times; but the transition is not atomic - between its
synchronous and deferred parts an intermediate state with a stale matrix
is observable (see the counterexample). -/
theorem resetCamera_postcondition_idempotent (s : CameraState) :
    (resetCamera s).position = s.initialPosition ∧
    (resetCamera s).rotation = s.initialRotation ∧
    (resetCamera s).isAnimating = false ∧
    (resetCamera s).transformMatrix = composeM s.initialPosition s.initialRotation ∧
    resetCamera (resetCamera s) = resetCamera s :=
  ⟨rfl, rfl, rfl, rfl, rfl⟩

/-- C4 — Disabled-edit guard: while `isAnimating = true` the three manual
edit operations leave the whole camera state unchanged (the inputs carry
`disabled={cameraState.isAnimating}`, so the edit cannot fire). -/
theorem animating_manual_edits_noop (s : CameraState) (i j : Fin 4) (k : Fin 3) (v : ℝ)
    (hanim : s.isAnimating = true) :
    setPositionComponent s k v = s ∧
    setRotationComponent s k v = s ∧
    setMatrixCell s i j v = s := by
  refine ⟨?_, ?_, ?_⟩ <;>
    simp [setPositionComponent, setRotationComponent, setMatrixCell, hanim]

/-- Witness for C4: concrete no-op edits on an animating state. -/
theorem animating_manual_edits_noop_witness :
    animatingState.isAnimating = true ∧
    setPositionComponent animatingState 0 5 = animatingState ∧
    setRotationComponent animatingState 0 5 = animatingState ∧
    setMatrixCell animatingState 0 3 5 = animatingState := by
  obtain ⟨h1, h2, h3⟩ := animating_manual_edits_noop animatingState 0 3 0 5 rfl
  exact ⟨rfl, h1, h2, h3⟩

/-- C1 — the synchronization invariant fails at `setMatrixCell`: writing
cell (2,3) of a transform whose rotation block is the 90-degree rotation
about Y re-derives `rotation` as (0,0,0) (the source decomposes into a
discarded temporary quaternion and reads the never-written Euler), so the
rotation block of `composeM position rotation` is the identity and differs
from the rotation block of `transformMatrix` already at entry (0,0):
1 against 0. -/
theorem setMatrixCell_rotation_desync :
    (setMatrixCell rotatedState 2 3 6).rotation = (⟨0, 0, 0⟩ : Vec3) ∧
    (setMatrixCell rotatedState 2 3 6).position = (⟨1, 2, 6⟩ : Vec3) ∧
    (composeM (setMatrixCell rotatedState 2 3 6).position
        (setMatrixCell rotatedState 2 3 6).rotation).m00 ≠
      (setMatrixCell rotatedState 2 3 6).transformMatrix.m00 := by
  refine ⟨rfl, rfl, ?_⟩
  intro h
  simp only [setMatrixCell, updateFromMatrix, rotatedState, initialCameraState,
    composeM, Mat4.setCell, decomposeM4] at h
  norm_num [Real.cos_zero, Real.sin_zero] at h

/-- C7 — the compose/decompose round trip fails on the engine: for the
input composed from position (1, 2, 6) and rotation (0, pi/3, 0) (each
angle inside (-pi/2, pi/2)), the re-derived position is exact, but the
re-derived rotation is (0,0,0) (the decomposed quaternion is discarded),
so the recomposed rotation block differs from the input block at entry
(0,0) by |1 - cos(pi/3)| = 1/2, far beyond the 1e-6 tolerance. -/
theorem roundtrip_rotation_lost :
    roundtripState.position = (⟨1, 2, 6⟩ : Vec3) ∧
    roundtripState.rotation = (⟨0, 0, 0⟩ : Vec3) ∧
    |(composeM roundtripState.position roundtripState.rotation).m00 -
        roundtripInput.m00| > 1e-6 := by
  refine ⟨rfl, rfl, ?_⟩
  have h1 : (composeM roundtripState.position roundtripState.rotation).m00 = 1 := by
    have hr : roundtripState.rotation = (⟨0, 0, 0⟩ : Vec3) := rfl
    rw [hr]
    simp [composeM]
  have h2 : roundtripInput.m00 = 1 / 2 := by
    simp [roundtripInput, composeM, Real.cos_pi_div_three]
  rw [h1, h2]
  rw [show (1 : ℝ) - 1 / 2 = 1 / 2 by norm_num]
  rw [abs_of_pos (by norm_num : (0 : ℝ) < 1 / 2)]
  norm_num

end CameraTool
